import Mathlib

/-!
Shallow embedding of the mono2ledger statement-processing pipeline
(src/mono2ledger/main.py and src/mono2ledger/config.py).

Modelling conventions:
* Machine integers of the source are `Int`/`Nat` (amounts are integers in
  minor units; times are unix seconds; `date_range` intervals are measured in
  days, mirroring `timedelta.days`).
* `re.match` on user-supplied matcher regexes is an external collaborator and
  is passed in as a predicate `rmatch : String → String → Bool`
  (`rmatch pattern text` models `re.match(pattern, text)`).
* `datetime.fromtimestamp(..).strftime(fmt)` is an external collaborator,
  passed in as `df : Int → String`.
* `pycountry.currencies.get(numeric=..).alpha_3` is the external currency
  resolver; it is modelled by `currencyAlpha3` over the numeric codes that
  appear in this development (980 UAH, 840 USD, 978 EUR); an unknown code
  makes the Python crash with AttributeError (`None.alpha_3`), modelled as
  an error.
* Fallible Python paths (uncaught exceptions, `exit(1)`) are modelled with
  `Except`: an exception raised while a generator is being consumed destroys
  the whole run's output, which is what `Except.error` denotes.
-/

/-- Python exceptions that the embedded fragment can raise. -/
inductive PyErr where
  /-- `AttributeError` naming the missing attribute. -/
  | attributeError (attr : String)
  deriving DecidableEq, Repr

/-- `main.Account` (a JSONObject): the fields the embedded code reads.
`cashbackType` and `iban` are present in every fetched account payload. -/
structure Account where
  id : String
  currencyCode : Int
  cashbackType : String
  iban : String
  deriving DecidableEq, Repr

/-- `main.StatementItem` (a JSONObject tagged with its account): the fields
the embedded code reads.  `counterIban` may be absent (`none`). -/
structure StatementItem where
  id : String
  time : Int
  description : String
  mcc : Int
  amount : Int
  operationAmount : Int
  currencyCode : Int
  counterIban : Option String
  cashbackAmount : Int
  account : Account
  deriving DecidableEq, Repr

/-- `config.SettingsModel`: the settings consulted by the embedded fragment
(config loading/validation is an external collaborator; fields the fragment
never reads are omitted). -/
structure SettingsModel where
  transfer_payee : Option String := some "Transfer"
  trim_leading_zeroes : Bool := true
  record_cashback : Bool := true
  cashback_payee : String := "Cashback"
  cashback_ledger_asset_account : String := "Assets:Mono2ledger:Cashback"
  cashback_ledger_income_account : String := "Income:Mono2ledger:Cashback"
  deriving DecidableEq, Repr

/-- `config.Account`: an entry of the per-account ledger-name mapping. -/
structure ConfigAccount where
  id : String
  ledger_account : String
  deriving DecidableEq, Repr

/-- `config.MatcherValue`.  Pydantic distinguishes a field that was never
provided from one explicitly set (`model_dump(exclude_unset=True)`), so each
field is wrapped in an outer `Option` meaning "was the field provided";
the inner type is the field's declared (possibly optional) type. -/
structure MatcherValue where
  ignore : Option Bool := none
  payee : Option (Option String) := none
  ledger_account : Option (Option String) := none
  deriving DecidableEq, Repr

/-- `MatcherValue()` — a value with no field set. -/
def defaultMatcherValue : MatcherValue := {}

/-- Reading `.payee` off a `MatcherValue`: an unset field reads as its
pydantic default (`None`). -/
def MatcherValue.payeeVal (v : MatcherValue) : Option String := v.payee.getD none

/-- Reading `.ledger_account` off a `MatcherValue` (unset reads as `None`). -/
def MatcherValue.ledgerVal (v : MatcherValue) : Option String :=
  v.ledger_account.getD none

/-- `config.MatcherPredicate`: `from_time`/`to_time` are stored as the
`timestamp()` of the parsed datetimes. -/
structure MatcherPredicate where
  mcc : Option (List Int) := none
  description : Option String := none
  from_time : Option Int := none
  to_time : Option Int := none
  deriving DecidableEq, Repr

mutual
/-- `config.Matcher`: value, predicate, optional submatchers. -/
inductive Matcher where
  | mk : Option MatcherValue → MatcherPredicate → Option MatchersModel → Matcher
/-- `config.MatchersModel`: a list of matchers (its own RootModel class in the
source, hence its own type here). -/
inductive MatchersModel where
  | nil : MatchersModel
  | cons : Matcher → MatchersModel → MatchersModel
end

/-- Accessor for `Matcher.value`. -/
def Matcher.value : Matcher → Option MatcherValue
  | .mk v _ _ => v

/-- Accessor for `Matcher.predicate`. -/
def Matcher.predicate : Matcher → MatcherPredicate
  | .mk _ p _ => p

/-- Accessor for `Matcher.submatchers`. -/
def Matcher.submatchers : Matcher → Option MatchersModel
  | .mk _ _ s => s

/-- View of a `MatchersModel` as a plain list. -/
def MatchersModel.toList : MatchersModel → List Matcher
  | .nil => []
  | .cons m rest => m :: rest.toList

/-- `config.ConfigModel`: settings, the account-name mapping (a dict in the
source, kept here as its key/value pairs in insertion order), and matchers. -/
structure ConfigModel where
  settings : SettingsModel := {}
  accounts : List (String × ConfigAccount) := []
  matchers : MatchersModel := .nil

/-- `ConfigModel.match_account`: first mapping entry whose `id` equals the
account id wins; otherwise the supplied default (after a warning). -/
def match_account (cfg : ConfigModel) (account_id : String) (default : String) :
    String :=
  match cfg.accounts.find? (fun kv => kv.2.id == account_id) with
  | some kv => kv.2.ledger_account
  | none => default

/-- `main.get_ledger_account_for_account`. -/
def get_ledger_account_for_account (cfg : ConfigModel) (account : Account) :
    String :=
  match_account cfg account.id ("Assets:Mono2ledger:" ++ account.id)

/-- The truth of a `MatcherPredicate` against a statement: the `or`-chain of
`ConfigModel._match_statement`, including Python truthiness of each field
(`None` and an empty list/string are falsy; datetimes are always truthy). -/
def predHolds (rmatch : String → String → Bool) (statement : StatementItem)
    (p : MatcherPredicate) : Bool :=
  (match p.mcc with
   | some l => !l.isEmpty && l.contains statement.mcc
   | none => false)
  || (match p.from_time with
      | some ft => decide (ft ≤ statement.time)
      | none => false)
  || (match p.to_time with
      | some tt => decide (statement.time ≤ tt)
      | none => false)
  || (match p.description with
      | some d => (d != "") && rmatch d statement.description
      | none => false)

/-- `ConfigModel._merge_values` on two present values: dict union of the set
fields, the second argument's set fields overriding the first's. -/
def mergeValues (first second : MatcherValue) : MatcherValue :=
  { ignore := second.ignore.orElse fun _ => first.ignore
    payee := second.payee.orElse fun _ => first.payee
    ledger_account := second.ledger_account.orElse fun _ => first.ledger_account }

/-- `ConfigModel._match_statement`.  A matched matcher whose `value` is `None`
makes `_merge_values` call `None.model_dump(...)`, raising `AttributeError`.
A matched matcher with submatchers recurses into them with the merged value
(an empty submatcher list behaves like the `ok` case, which the recursion on
`.nil` reproduces). -/
def match_statement_aux (rmatch : String → String → Bool)
    (statement : StatementItem) :
    MatchersModel → MatcherValue → Except PyErr MatcherValue
  | .nil, cur => .ok cur
  | .cons (.mk val pred subsOpt) rest, cur =>
    if predHolds rmatch statement pred then
      match val with
      | none => .error (.attributeError "model_dump")
      | some v =>
        let cur' := mergeValues cur v
        match subsOpt with
        | some subs => match_statement_aux rmatch statement subs cur'
        | none => .ok cur'
    else match_statement_aux rmatch statement rest cur

/-- `ConfigModel.match_statement` as called from `main` (no default value
supplied, so the initial value is `MatcherValue()`). -/
def match_statement (cfg : ConfigModel) (rmatch : String → String → Bool)
    (statement : StatementItem) : Except PyErr MatcherValue :=
  match_statement_aux rmatch statement cfg.matchers defaultMatcherValue

/-- The external currency resolver `currencies.get(numeric=str(code)).alpha_3`
on the numeric codes used in this development; an unknown code makes the
Python crash (`None.alpha_3`). -/
def currencyAlpha3 (code : Int) : Except PyErr String :=
  if code = 980 then .ok "UAH"
  else if code = 840 then .ok "USD"
  else if code = 978 then .ok "EUR"
  else .error (.attributeError "alpha_3")

/-- `n` space characters. -/
def spaces (n : Nat) : String := String.mk (List.replicate n ' ')

/-- Python `f"{s:<w>}"` for a string: left-justify to width `w`. -/
def ljust (s : String) (w : Nat) : String := s ++ spaces (w - s.length)

/-- Python `f"{x:<w>}"` for a number: right-justify to width `w`. -/
def rjust (s : String) (w : Nat) : String := spaces (w - s.length) ++ s

/-- Exact rendering of `a/100` with two decimal digits (`f"{a/100:.2f}"`;
the quotient has at most two decimals, so the float formatting is exact). -/
def formatFixed2 (a : Int) : String :=
  (if a < 0 then "-" else "")
    ++ toString (a.natAbs / 100) ++ "."
    ++ (if a.natAbs % 100 < 10 then "0" else "") ++ toString (a.natAbs % 100)

/-- `format_amount` inside `main.format_ledger_transaction`: the argument is
in minor units; `amount % 1 == 0` on the float quotient holds exactly when
100 divides the integer amount. -/
def format_amount (cfg : ConfigModel) (amount : Int) (pad : Bool) : String :=
  if cfg.settings.trim_leading_zeroes ∧ amount % 100 = 0 then
    if pad then rjust (toString (amount / 100)) 8 else toString (amount / 100)
  else
    if pad then rjust (formatFixed2 amount) 8 else formatFixed2 amount

/-- Python `f"{o}"` on an `Optional[str]`: `None` prints as `"None"`. -/
def pyStrOpt (o : Option String) : String := o.getD "None"

/-- Python truthiness of an `Optional[int]`. -/
def optIntTruthy (o : Option Int) : Bool :=
  match o with
  | some v => v != 0
  | none => false

/-- Python truthiness of an `Optional[str]`. -/
def optStrTruthy (o : Option String) : Bool :=
  match o with
  | some s => s != ""
  | none => false

/-- The local variables of `main.format_ledger_transaction` at the moment the
first transaction is yielded (after sign normalization). -/
structure TxParts where
  payee : String
  to_account : String
  from_account : String
  amount : Int
  exchange_amount : Option Int
  exchange_currency : Option String
  currency : String
  deriving DecidableEq, Repr

/-- The computation of `main.format_ledger_transaction`'s locals.

The merged-transfer branch (`source_statement` present) completes normally.
The single-statement branch computes `payee` and then evaluates
`match.source_ledger_account_suffix` — an attribute `config.MatcherValue`
does not define — so it raises `AttributeError` before anything is yielded. -/
def ledger_tx_parts (cfg : ConfigModel) (rmatch : String → String → Bool)
    (statement : StatementItem) (source_statement : Option StatementItem) :
    Except PyErr TxParts := do
  match source_statement with
  | some src =>
    let payee := pyStrOpt cfg.settings.transfer_payee
    let to_account := get_ledger_account_for_account cfg statement.account
    let from_account := get_ledger_account_for_account cfg src.account
    let amount := statement.amount
    let (exchange_amount, exchange_currency) ←
      if src.amount ≠ src.operationAmount then do
        let c ← currencyAlpha3 src.account.currencyCode
        pure (some src.amount, some c)
      else
        pure ((none : Option Int), (none : Option String))
    let currency ← currencyAlpha3 statement.currencyCode
    if amount < 0 then
      pure { payee := payee, to_account := from_account,
             from_account := to_account, amount := -amount,
             exchange_amount :=
               if optIntTruthy exchange_amount then
                 exchange_amount.map (fun v => -v)
               else exchange_amount,
             exchange_currency := exchange_currency, currency := currency }
    else
      pure { payee := payee, to_account := to_account,
             from_account := from_account, amount := amount,
             exchange_amount := exchange_amount,
             exchange_currency := exchange_currency, currency := currency }
  | none =>
    let mv ← match_statement cfg rmatch statement
    let _payee :=
      if optStrTruthy mv.payeeVal then pyStrOpt mv.payeeVal
      else statement.description
    Except.error (.attributeError "source_ledger_account_suffix")

/-- The text blocks yielded by `main.format_ledger_transaction` from its
computed locals: the main transaction, plus a cashback transaction when the
feature is on and the statement's cashback amount is truthy. -/
def render_transaction (cfg : ConfigModel) (df : Int → String)
    (statement : StatementItem) (p : TxParts) : List String :=
  let transaction_date := df statement.time
  let exchange :=
    if optIntTruthy p.exchange_amount && optStrTruthy p.exchange_currency then
      "@@ " ++ format_amount cfg (-(p.exchange_amount.getD 0)) false
        ++ " " ++ p.exchange_currency.getD ""
    else ""
  let first :=
    transaction_date ++ " " ++ p.payee ++ "\n\t"
      ++ ljust p.to_account 60 ++ " " ++ format_amount cfg p.amount true
      ++ " " ++ p.currency ++ " " ++ exchange ++ "\n\t" ++ p.from_account
  if cfg.settings.record_cashback && (statement.cashbackAmount != 0) then
    [first,
     transaction_date ++ " " ++ cfg.settings.cashback_payee ++ "\n\t"
       ++ ljust cfg.settings.cashback_ledger_asset_account 60
       ++ " " ++ format_amount cfg statement.cashbackAmount true
       ++ " " ++ statement.account.cashbackType ++ "\n\t"
       ++ cfg.settings.cashback_ledger_income_account]
  else [first]

/-- `main.format_ledger_transaction`: the (eagerly consumed) generator's
output, or the exception its consumption raises. -/
def format_ledger_transaction (cfg : ConfigModel)
    (rmatch : String → String → Bool) (df : Int → String)
    (statement : StatementItem) (source_statement : Option StatementItem) :
    Except PyErr (List String) :=
  (ledger_tx_parts cfg rmatch statement source_statement).map
    (render_transaction cfg df statement)

/-- The recursion of `main.date_range`, with an explicit recursion-depth
bound `fuel`.  When the guard holds, `delta > 30` and `m ≥ 1`, so
`(stop - start).toNat` strictly decreases on recursion; with
`fuel = (stop - start).toNat` (as `date_range` passes) the `0` case is only
reached with `delta ≤ 0`, where the guard is false and the branch taken is
exactly the source's base case — the bound never truncates the recursion. -/
def date_range_go : Nat → Int → Int → Int → List (Int × Int)
  | 0, start, stop, _ => [(stop - (stop - start), stop)]
  | fuel + 1, start, stop, m =>
    let delta := stop - start
    if 30 < delta ∧ 0 < m then
      date_range_go fuel start (stop - m) m ++ [(stop - delta, stop)]
    else
      [(stop - delta, stop)]

/-- `main.date_range`.  Times are in days (mirroring `timedelta.days` on
whole-day differences); `m` is the step `interval` in days (the caller passes
`relativedelta(months=1)`, 28–31 days, always positive; for a non-positive
step the Python recursion would not terminate, so the guard also requires
`0 < m`).  Note the source computes `delta = end - start` once and yields
`(end - delta, end)`, i.e. `(start, end)`, at every recursion level. -/
def date_range (start stop m : Int) : List (Int × Int) :=
  date_range_go (stop - start).toNat start stop m

/-- A response of the statement endpoint: the decoded JSON list, an HTTP 429,
or any other `HTTPError` carrying its body. -/
inductive ApiResp where
  | ok : List Nat → ApiResp
  | rateLimited : ApiResp
  | failed : String → ApiResp
  deriving DecidableEq, Repr

/-- How a run of `main.fetch_statements` can abort: the `NameError` raised by
reading `response` after the 429 handler ran on the very first iteration,
the `logging.fatal`/`exit(1)` on any other HTTP error, or (only in this
model) exhaustion of the recursion fuel. -/
inductive FetchErr where
  | nameError : FetchErr
  | fatalExit : String → FetchErr
  | outOfFuel : FetchErr
  deriving DecidableEq, Repr

/-- Observable side effects of `main.fetch_statements`: how many API calls
were made, how many seconds were spent in `time.sleep`, and the log of
statement requests `(account id, from, to)` in issue order. -/
structure FetchSt where
  callIdx : Nat
  slept : Nat
  requests : List (String × Int × Int)
  deriving DecidableEq, Repr

/-- The result of consuming the `fetch_statements` generator: either the
yielded `(item, account id)` pairs or the exception that aborted it, plus
the final effect state. -/
abbrev FetchRes := Except FetchErr (List (Nat × String)) × FetchSt

/-- The code below the `try`/`except` of `main.fetch_statements`'s loop
body: sleep 60 seconds, then either yield the response's items (fewer than
500), or drop them and recurse on `(_from_time, _to_time - period)` and
`(_from_time + period, _to_time)` where
`period = (_from_time - _to_time).days / 2` — a negative number of days.

`fetchRec f t st` is the recursive call `fetch_statements(accounts, f, t)`
(both the bisection and the 429 retry recurse with the full `accounts`
list); `contLoop` continues the `for` loop over the remaining
`(account, interval)` pairs.  `pre` holds items already yielded earlier in
this iteration (by the 429 handler's recursive `yield from`). -/
def fetchAfter (fetchRec : Int → Int → FetchSt → FetchRes)
    (contLoop : Option (List Nat) → FetchSt → FetchRes)
    (acct : Account) (f t : Int) (items : List Nat)
    (prev : Option (List Nat)) (pre : List (Nat × String)) (st : FetchSt) :
    FetchRes :=
  let st2 : FetchSt := ⟨st.callIdx, st.slept + 60, st.requests⟩
  if items.length < 500 then
    match contLoop prev st2 with
    | (.error e, st') => (.error e, st')
    | (.ok ys, st') =>
      (.ok (pre ++ items.map (fun x => (x, acct.id)) ++ ys), st')
  else
    let period := (f - t) / 2
    match fetchRec f (t - period) st2 with
    | (.error e, st') => (.error e, st')
    | (.ok ys1, st') =>
      match fetchRec (f + period) t st' with
      | (.error e, st'') => (.error e, st'')
      | (.ok ys2, st'') =>
        match contLoop prev st'' with
        | (.error e, st3) => (.error e, st3)
        | (.ok ys, st3) => (.ok (pre ++ ys1 ++ ys2 ++ ys), st3)

/-- The body of `main.fetch_statements`'s `for` loop over
`itertools.product(accounts, intervals)`.

`api` maps the call sequence number to the response (the transport is the
external collaborator).  `f0, t0` are the enclosing call's
`from_time`/`to_time` (the 429 retry re-fetches that whole range).  `prev`
is the loop-local `response` variable from the previous iteration: after the
429 handler finishes its recursive `yield from`, control falls through to
the code below the `try`/`except`, which reads `response` — unbound on the
first iteration (`NameError`), stale afterwards. -/
def fetchLoop (api : Nat → ApiResp)
    (fetchRec : Int → Int → FetchSt → FetchRes) (f0 t0 : Int) :
    List (Account × Int × Int) → Option (List Nat) → FetchSt → FetchRes
  | [], _, st => (.ok [], st)
  | (acct, f, t) :: rest, prev, st =>
    let st1 : FetchSt :=
      ⟨st.callIdx + 1, st.slept, st.requests ++ [(acct.id, f, t)]⟩
    match api st.callIdx with
    | .rateLimited =>
      let st2 : FetchSt := ⟨st1.callIdx, st1.slept + 60, st1.requests⟩
      match fetchRec f0 t0 st2 with
      | (.error e, st') => (.error e, st')
      | (.ok retried, st') =>
        match prev with
        | none => (.error .nameError, st')
        | some items =>
          fetchAfter fetchRec (fetchLoop api fetchRec f0 t0 rest) acct f t
            items (some items) retried st'
    | .failed body => (.error (.fatalExit body), st1)
    | .ok items =>
      fetchAfter fetchRec (fetchLoop api fetchRec f0 t0 rest) acct f t items
        (some items) [] st1

/-- `main.fetch_statements` for a given transport `api` and month step `m`
(in days).  `fuel` bounds the recursion depth (the Python recursion is
unbounded); every theorem below supplies enough fuel for its input. -/
def fetch_statements (api : Nat → ApiResp) (m : Int) :
    Nat → List Account → Int → Int → FetchSt → FetchRes
  | 0, _, _, _, st => (.error .outOfFuel, st)
  | fuel + 1, accounts, from_time, to_time, st =>
    let intervals := date_range from_time to_time m
    let combinations :=
      accounts.flatMap (fun a => intervals.map (fun iv => (a, iv.1, iv.2)))
    fetchLoop api (fetch_statements api m fuel accounts) from_time to_time
      combinations none st

/-- `t` occurs as a substring of `s` (used for the fixed patterns of
`is_cross_card_statement`; `re.match(r".*X.*", s)` on a single-line `s` is a
substring test for each alternative `X`). -/
def containsSub (s t : String) : Bool := (s.splitOn t).length != 1

/-- `main._main.is_cross_card_statement` (closure over the fetched account
list).  A statement whose MCC is not 4829 is never cross-card.  A present,
non-empty `counterIban` decides by membership among the accounts' IBANs;
otherwise the description is matched against the bank's fixed phrases
(`"ФОП"` or one of the card-type words, or one of the currency words). -/
def is_cross_card_statement (accounts : List Account)
    (statement : StatementItem) : Bool :=
  if statement.mcc != 4829 then false
  else
    match statement.counterIban with
    | some counter_iban =>
      if counter_iban != "" then
        accounts.any (fun x => x.iban == counter_iban)
      else is_cross_card_descr statement.description
    | none => is_cross_card_descr statement.description
where
  /-- The description heuristics of `is_cross_card_statement`:
  `has_card_type or has_currency`. -/
  is_cross_card_descr (description : String) : Bool :=
    let has_card_type :=
      containsSub description "ФОП"
        || containsSub description "чорну" || containsSub description "чорної"
        || containsSub description "білу" || containsSub description "білої"
    let has_currency :=
      containsSub description "гривневий"
        || containsSub description "гривневого"
        || containsSub description "євровий"
        || containsSub description "єврового"
        || containsSub description "доларвий"
        || containsSub description "доларвого"
    has_card_type || has_currency

/-- The sort key comparison of `create_ledger_entries`:
`key(a) > key(b)` for `key = (time, amount)` under tuple ordering. -/
def keyGt (a b : StatementItem) : Prop :=
  b.time < a.time ∨ (b.time = a.time ∧ b.amount < a.amount)

instance (a b : StatementItem) : Decidable (keyGt a b) :=
  inferInstanceAs
    (Decidable (b.time < a.time ∨ (b.time = a.time ∧ b.amount < a.amount)))

/-- Stable descending insertion: `x` goes after every element whose key is
`≥` its own, so elements with equal keys keep their original order. -/
def insertDesc (x : StatementItem) :
    List StatementItem → List StatementItem
  | [] => [x]
  | y :: ys => if keyGt x y then x :: y :: ys else y :: insertDesc x ys

/-- `sorted(statements, key=lambda x: (x.time, x.amount), reverse=True)`:
Python's sort is stable, and a stable descending sort is extensionally the
insertion sort that keeps equal keys in encounter order. -/
def sortStatements (l : List StatementItem) : List StatementItem :=
  l.foldl (fun acc x => insertDesc x acc) []

/-- Whether the `while` loop of `create_ledger_entries` extends the current
chain from `cur` to the next statement `n`:
`cur.operation_amount == -n.operation_amount and
 cur.currency_code == n.currency_code and cur.mcc == n.mcc`. -/
def chainCond (cur n : StatementItem) : Prop :=
  cur.operationAmount = -n.operationAmount
    ∧ cur.currencyCode = n.currencyCode ∧ cur.mcc = n.mcc

instance (a b : StatementItem) : Decidable (chainCond a b) :=
  inferInstanceAs
    (Decidable (a.operationAmount = -b.operationAmount
      ∧ a.currencyCode = b.currencyCode ∧ a.mcc = b.mcc))

mutual
/-- The `for` loop of `main._main.create_ledger_entries` over the sorted
list.  A cross-card statement starts a chain walk; any other statement is
formatted on its own (which, with the embedded code, raises).  Each group's
blocks are yielded in reverse (`yield from reversed(list(...))`). -/
def cle_loop (cfg : ConfigModel) (rmatch : String → String → Bool)
    (df : Int → String) (accounts : List Account) :
    List StatementItem → Except PyErr (List String)
  | [] => .ok []
  | s :: rest =>
    if is_cross_card_statement accounts s then
      cle_chain cfg rmatch df accounts s s rest
    else
      match format_ledger_transaction cfg rmatch df s none with
      | .error e => .error e
      | .ok blocks =>
        match cle_loop cfg rmatch df accounts rest with
        | .error e => .error e
        | .ok more => .ok (blocks.reverse ++ more)
termination_by l => (l.length, 0)
/-- The `while` loop of `create_ledger_entries`: `first` is the loop
variable `statement`, `cur` is `current_statement`; every consumed statement
is deleted from the list, so iteration resumes right after the chain. -/
def cle_chain (cfg : ConfigModel) (rmatch : String → String → Bool)
    (df : Int → String) (accounts : List Account)
    (first cur : StatementItem) :
    List StatementItem → Except PyErr (List String)
  | [] =>
    match format_ledger_transaction cfg rmatch df first (some cur) with
    | .error e => .error e
    | .ok blocks => .ok blocks.reverse
  | n :: t =>
    if chainCond cur n then cle_chain cfg rmatch df accounts first n t
    else
      match format_ledger_transaction cfg rmatch df first (some cur) with
      | .error e => .error e
      | .ok blocks =>
        match cle_loop cfg rmatch df accounts (n :: t) with
        | .error e => .error e
        | .ok more => .ok (blocks.reverse ++ more)
termination_by l => (l.length, 1)
end

/-- `main._main.create_ledger_entries`: sort newest-first, then walk the
list merging cross-card chains. -/
def create_ledger_entries (cfg : ConfigModel)
    (rmatch : String → String → Bool) (df : Int → String)
    (accounts : List Account) (statements : List StatementItem) :
    Except PyErr (List String) :=
  cle_loop cfg rmatch df accounts (sortStatements statements)

/-- Rewrite every matcher in a list so that its value (when present) has
`ignore` explicitly set to `b`; recurses into submatchers.  Used to state
that the `ignore` field is dead: the pipeline's output is invariant under
this rewriting. -/
def setIgnoreMs (b : Bool) : MatchersModel → MatchersModel
  | .nil => .nil
  | .cons (.mk val pred subsOpt) rest =>
    .cons (.mk (val.map fun v => { v with ignore := some b }) pred
      (match subsOpt with
       | some ms => some (setIgnoreMs b ms)
       | none => none)) (setIgnoreMs b rest)

/-- Set the `ignore` field of every matcher value in the configuration. -/
def setAllIgnore (b : Bool) (cfg : ConfigModel) : ConfigModel :=
  { cfg with matchers := setIgnoreMs b cfg.matchers }

/-- Forget the `ignore` field of a matcher value (for stating that nothing
downstream depends on it). -/
def eraseIg (v : MatcherValue) : MatcherValue := { v with ignore := none }

/-! Concrete fixtures used by the claim theorems and witnesses. -/

/-- A configuration with no account mapping and no matchers; all settings at
their defaults. -/
def cfgBase : ConfigModel := {}

/-- A regex collaborator under which no matcher regex matches. -/
def rmatchFalse : String → String → Bool := fun _ _ => false

/-- A fixed date renderer. -/
def dfTest : Int → String := fun _ => "2024/01/01"

/-- A UAH account. -/
def acctUAH : Account := ⟨"acct1", 980, "UAH", "UA-1"⟩

/-- C1's scenario: a statement on the UAH account with `amount = 1000`
minor units and `operation_amount = 100` minor units in USD (currency code
840). -/
def stC1 : StatementItem :=
  ⟨"st1", 0, "Coffee", 1234, 1000, 100, 840, none, 0, acctUAH⟩

/-- A statement whose transaction currency (840) differs from its account's
(980) and whose `amount` differs from `operation_amount`. -/
def stC2 : StatementItem :=
  ⟨"st2", 0, "Tea", 1111, 2000, 300, 840, none, 0, acctUAH⟩

/-- An outgoing UAH statement matching no rule. -/
def stC8 : StatementItem :=
  ⟨"st8", 0, "Shop", 4242, -500, -500, 980, none, 0, acctUAH⟩

/-- The EUR source account of the cross-card scenarios. -/
def acctSrc : Account := ⟨"src", 978, "UAH", "IBAN-S"⟩

/-- The UAH destination account of the cross-card scenarios. -/
def acctDst : Account := ⟨"dst", 980, "UAH", "IBAN-D"⟩

/-- The `end` statement of a cross-card pair (cross-card via a counter IBAN
that belongs to one of the user's accounts). -/
def stE : StatementItem :=
  ⟨"e", 100, "x", 4829, 500, 500, 980, some "IBAN-S", 0, acctDst⟩

/-- An unrelated (non-transfer) statement timed between the pair. -/
def stU : StatementItem :=
  ⟨"u", 99, "grocery", 1234, -200, -200, 980, none, 0, acctDst⟩

/-- The `start` statement of the cross-card pair of `stE`/`stS`. -/
def stS : StatementItem :=
  ⟨"s", 98, "y", 4829, -480, -500, 980, some "IBAN-D", 0, acctSrc⟩

/-- A transitive hop chaining `stE` to `stS2`. -/
def stT1 : StatementItem :=
  ⟨"t1", 99, "t", 4829, -500, -500, 980, some "IBAN-D", 0, acctDst⟩

/-- A `start` statement chain-compatible with `stT1`, on the EUR account,
with `amount ≠ operation_amount` (an exchange took place). -/
def stS2 : StatementItem :=
  ⟨"s2", 98, "y", 4829, -480, 500, 980, some "IBAN-D", 0, acctSrc⟩

/-- A merged-transfer destination statement whose amount is negative. -/
def stNeg : StatementItem :=
  ⟨"n", 50, "z", 4829, -500, -500, 980, none, 0, acctDst⟩

/-- The source statement paired with `stNeg`. -/
def stSrc9 : StatementItem :=
  ⟨"m", 49, "w", 4829, 500, 500, 980, none, 0, acctSrc⟩

/-- The account used by the fetch scenarios. -/
def acctA : Account := ⟨"acc-a", 980, "UAH", "UA-A"⟩

/-- A transport that rate-limits the first request and then answers every
request with a single item `7`. -/
def apiC5 : Nat → ApiResp := fun n => if n = 0 then .rateLimited else .ok [7]

/-- A transport whose first response has exactly 500 items (the truncation
threshold) and whose later responses are the single items `1` and `2`. -/
def apiC6 : Nat → ApiResp := fun n =>
  if n = 0 then .ok (List.range 500)
  else if n = 1 then .ok [1]
  else .ok [2]

/-- A submatcher carrying only a `ledger_account`. -/
def subC7 : Matcher :=
  .mk (some ⟨none, none, some (some "Y")⟩) ⟨some [5], none, none, none⟩ none

/-- A top-level matcher carrying only a `payee`, with `subC7` below it. -/
def topC7 : Matcher :=
  .mk (some ⟨none, some (some "X"), none⟩) ⟨some [5], none, none, none⟩
    (some (.cons subC7 .nil))

/-- A configuration whose single rule has a submatcher. -/
def cfgC7 : ConfigModel := { matchers := .cons topC7 .nil }

/-- A statement with MCC 5, matching both `topC7` and `subC7`. -/
def stC7 : StatementItem := ⟨"st7", 0, "d", 5, -100, -100, 980, none, 0, acctUAH⟩

/-- A flat two-rule list: MCC 7 sets payee "P"; MCC 5 sets payee "Q". -/
def msC7w : MatchersModel :=
  .cons (.mk (some ⟨none, some (some "P"), none⟩) ⟨some [7], none, none, none⟩ none)
    (.cons (.mk (some ⟨none, some (some "Q"), none⟩) ⟨some [5], none, none, none⟩ none)
      .nil)

/-- A statement with MCC 5 (matches only the second rule of `msC7w`). -/
def stC7w : StatementItem :=
  ⟨"st7w", 0, "d", 5, -100, -100, 980, none, 0, acctUAH⟩

/-- A configuration whose single rule matches MCC 1234 and sets
`ignore = true`. -/
def cfgC10 : ConfigModel :=
  { matchers :=
      .cons (.mk (some ⟨some true, none, none⟩) ⟨some [1234], none, none, none⟩
        none) .nil }

/-- A statement with MCC 1234 (matched by `cfgC10`'s ignoring rule). -/
def stC10 : StatementItem :=
  ⟨"st10", 0, "Ignored", 1234, -300, -300, 980, none, 0, acctUAH⟩

/-! Helper lemmas. -/

/-- Merging a value into `MatcherValue()` gives that value back (the initial
dump of `MatcherValue()` is the empty dict). -/
theorem mergeValues_default (v : MatcherValue) :
    mergeValues defaultMatcherValue v = v := by
  rcases v with ⟨i, p, l⟩
  simp only [mergeValues, defaultMatcherValue]
  cases i <;> cases p <;> cases l <;> rfl

/-- C1: the formatter is claimed to emit `10.00 UAH @@ 1.00 USD` for a UAH
statement of 1000 minor units with a 100-minor-unit USD operation amount, with
the accounts swapped relative to the outgoing case.  Evaluating the embedded
code on exactly that statement instead raises `AttributeError`: the
single-statement branch reads `match.source_ledger_account_suffix`, a field
`config.MatcherValue` does not define, before yielding anything. -/
theorem claim_C1_eval :
    format_ledger_transaction cfgBase rmatchFalse dfTest stC1 none =
      Except.error (PyErr.attributeError "source_ledger_account_suffix") := by
  rfl

/-- C2 counterexample: the claim says an `@@` exchange clause is emitted
whenever the transaction currency (840) differs from the account currency
(980).  On such a statement the embedded single-statement formatter emits
nothing at all: it raises `AttributeError` before yielding, so in particular
no exchange clause with any counter-amount sign is produced. -/
theorem claim_C2_counterexample :
    format_ledger_transaction cfgBase rmatchFalse dfTest stC2 none =
      Except.error (PyErr.attributeError "source_ledger_account_suffix") := by
  rfl

/-- C2 amended: no single (non-merged) statement is ever formatted — for
every configuration, regex collaborator, date renderer and statement, the
single-statement path of `format_ledger_transaction` fails before emitting,
so no `@@` clause is ever emitted by it (neither when the currencies
coincide nor when they differ). -/
theorem claim_C2_amended (cfg : ConfigModel) (rmatch : String → String → Bool)
    (df : Int → String) (s : StatementItem) :
    ∃ e, format_ledger_transaction cfg rmatch df s none = Except.error e := by
  cases h : match_statement cfg rmatch s with
  | error e =>
    exact ⟨e, by simp [format_ledger_transaction, ledger_tx_parts, h,
      Except.map, Bind.bind, Except.bind]⟩
  | ok v =>
    exact ⟨PyErr.attributeError "source_ledger_account_suffix",
      by simp [format_ledger_transaction, ledger_tx_parts, h,
        Except.map, Bind.bind, Except.bind]⟩

/-- C4: the claim says `date_range` walks forward from the start in 31-day
steps, producing a disjoint partition with every interval at most 31 days.
Evaluating the embedded `date_range` on a 62-day range with the 31-day step
instead yields nested intervals that all begin at the start, the last being
the entire 62-day range: `delta = end - start` is computed before the
recursion and `(end - delta, end) = (start, end)` is yielded at every level. -/
theorem claim_C4_eval :
    date_range 0 62 31 = [(0, 0), (0, 31), (0, 62)] := by
  rfl

/-- C5: the claim says a 429 leads to a 60-second wait, a retry of the same
interval, and each statement still yielded exactly once.  Evaluating the
embedded `fetch_statements` on one account and one interval, with the
transport rate-limiting the first call and succeeding afterwards: the retry
re-issues the whole range (the same request appears twice in the log), and
after the retry's `yield from` finishes, the loop body falls through to read
the still-unbound `response`, so the run dies with `NameError` and the
statement yielded inside the retry is lost with it. -/
theorem claim_C5_eval :
    fetch_statements apiC5 31 2 [acctA] 0 10 ⟨0, 0, []⟩ =
      (Except.error FetchErr.nameError,
       ⟨2, 120, [("acc-a", 0, 10), ("acc-a", 0, 10)]⟩) := by
  rfl

set_option maxRecDepth 20000 in
/-- C6: the claim says a 500-item response makes the scheduler drop the items
and fetch the interval's two halves.  Evaluating the embedded
`fetch_statements` on the interval `[0, 10]` with a 500-item first response:
the items are indeed dropped and two recursive fetches are issued, but
`period = (from - to).days / 2` is negative, so the two sub-requests are
`(0, 15)` and `(-5, 10)` — each larger than the original interval — rather
than the halves `(0, 5)` and `(5, 10)`. -/
theorem claim_C6_eval :
    fetch_statements apiC6 31 2 [acctA] 0 10 ⟨0, 0, []⟩ =
      (Except.ok [(1, "acc-a"), (2, "acc-a")],
       ⟨3, 180, [("acc-a", 0, 10), ("acc-a", 0, 15), ("acc-a", -5, 10)]⟩) := by
  rfl

/-- C8: the claim says that with no matching rule the formatter uses the
defaults `Expenses:Mono2ledger:<account>:<statement>`, the raw description as
payee, and an empty source-account suffix.  Evaluating the embedded formatter
on a statement matching no rule: it raises `AttributeError` reading
`match.source_ledger_account_suffix` (the field is absent from
`config.MatcherValue`), so no resolved classification is ever produced. -/
theorem claim_C8_eval :
    format_ledger_transaction cfgBase rmatchFalse dfTest stC8 none =
      Except.error (PyErr.attributeError "source_ledger_account_suffix") := by
  rfl

/-- On a flat rule list (no submatchers) in which every rule carries a value,
`_match_statement` started from `MatcherValue()` returns the value of the
first rule whose predicate holds, or the initial default when none does. -/
theorem match_aux_flat (rmatch : String → String → Bool)
    (stmt : StatementItem) :
    ∀ (ms : MatchersModel),
      (∀ m ∈ ms.toList, m.submatchers = none) →
      (∀ m ∈ ms.toList, m.value.isSome) →
      match_statement_aux rmatch stmt ms defaultMatcherValue =
        Except.ok
          (((ms.toList.find? fun m => predHolds rmatch stmt m.predicate).map
            fun m => m.value.getD defaultMatcherValue).getD defaultMatcherValue)
  | .nil, _, _ => by
    simp [MatchersModel.toList, match_statement_aux]
  | .cons (.mk val pred subs) rest, hflat, hval => by
    have hmem : (Matcher.mk val pred subs) ∈
        (MatchersModel.cons (.mk val pred subs) rest).toList := by
      simp [MatchersModel.toList]
    have hsub : subs = none := by
      simpa [Matcher.submatchers] using hflat _ hmem
    obtain ⟨v, hv⟩ : ∃ v, val = some v := by
      have := hval _ hmem
      cases val with
      | none => simp [Matcher.value] at this
      | some v => exact ⟨v, rfl⟩
    subst hsub hv
    by_cases hp : predHolds rmatch stmt pred
    · simp [MatchersModel.toList, match_statement_aux, hp, Matcher.predicate,
        Matcher.value, List.find?, mergeValues_default]
    · have ih := match_aux_flat rmatch stmt rest
        (fun m hm => hflat m (by simp [MatchersModel.toList, hm]))
        (fun m hm => hval m (by simp [MatchersModel.toList, hm]))
      simp [MatchersModel.toList, match_statement_aux, hp, Matcher.predicate,
        List.find?, ih]

/-- C7 counterexample: a statement matching a rule that has a submatcher.
Classification returns the union of the parent rule's value (`payee = "X"`)
and the submatcher's value (`ledger_account = "Y"`) — not the action of the
first matching rule (`topC7`, which sets only the payee). -/
theorem claim_C7_counterexample :
    match_statement cfgC7 rmatchFalse stC7 =
      Except.ok ⟨none, some (some "X"), some (some "Y")⟩ ∧
    (⟨none, some (some "X"), some (some "Y")⟩ : MatcherValue) ≠
      topC7.value.getD defaultMatcherValue := by
  constructor
  · rfl
  · decide

/-- C7 amended: on a flat rule list (no submatchers) in which every rule
carries an action, classification returns the action of the first rule in
declaration order whose predicate holds, with no merging across rules, or
the default `MatcherValue()` when no rule matches; when a matched rule has
submatchers its action is merged with the submatcher result.  The engine is
a pure function, so re-running is trivially deterministic. -/
theorem claim_C7_amended (rmatch : String → String → Bool)
    (stmt : StatementItem) (ms : MatchersModel)
    (hflat : ∀ m ∈ ms.toList, m.submatchers = none)
    (hval : ∀ m ∈ ms.toList, m.value.isSome) :
    match_statement_aux rmatch stmt ms defaultMatcherValue =
      Except.ok
        (((ms.toList.find? fun m => predHolds rmatch stmt m.predicate).map
          fun m => m.value.getD defaultMatcherValue).getD defaultMatcherValue) :=
  match_aux_flat rmatch stmt ms hflat hval

/-- C7 witness: the amended claim applied to the concrete flat two-rule list
`msC7w` and the MCC-5 statement `stC7w`. -/
theorem claim_C7_witness :
    (∀ m ∈ msC7w.toList, m.submatchers = none) ∧
    (∀ m ∈ msC7w.toList, m.value.isSome) ∧
    match_statement_aux rmatchFalse stC7w msC7w defaultMatcherValue =
      Except.ok
        (((msC7w.toList.find? fun m => predHolds rmatchFalse stC7w m.predicate).map
          fun m => m.value.getD defaultMatcherValue).getD defaultMatcherValue) := by
  have h1 : ∀ m ∈ msC7w.toList, m.submatchers = none := by
    intro m hm
    simp [msC7w, MatchersModel.toList] at hm
    rcases hm with rfl | rfl <;> rfl
  have h2 : ∀ m ∈ msC7w.toList, m.value.isSome := by
    intro m hm
    simp [msC7w, MatchersModel.toList] at hm
    rcases hm with rfl | rfl <;> rfl
  exact ⟨h1, h2, claim_C7_amended rmatchFalse stC7w msC7w h1 h2⟩

/-- C9 counterexample: a merged transfer whose destination statement has a
negative amount.  The formatter's sign normalization also runs for merged
transfers, so `to_account` ends up being the *source* statement's ledger
account — the accounts are swapped, contradicting "merged transfers are never
swapped". -/
theorem claim_C9_counterexample :
    (ledger_tx_parts cfgBase rmatchFalse stNeg (some stSrc9)).map
        TxParts.to_account =
      Except.ok (get_ledger_account_for_account cfgBase stSrc9.account) ∧
    get_ledger_account_for_account cfgBase stSrc9.account ≠
      get_ledger_account_for_account cfgBase stNeg.account := by
  constructor
  · rfl
  · decide

/-- C9 amended: for merged transfers the accounts are swapped exactly when
the destination statement's amount is negative (the sign normalization is
shared with the single-statement path, not skipped for merged transfers);
single statements never reach the swap because their branch raises first. -/
theorem claim_C9_amended (cfg : ConfigModel) (rmatch : String → String → Bool)
    (st src : StatementItem) (c : String)
    (h1 : currencyAlpha3 st.currencyCode = Except.ok c)
    (h2 : src.amount = src.operationAmount ∨
      ∃ c2, currencyAlpha3 src.account.currencyCode = Except.ok c2) :
    (ledger_tx_parts cfg rmatch st (some src)).map TxParts.to_account =
      Except.ok
        (if st.amount < 0 then get_ledger_account_for_account cfg src.account
         else get_ledger_account_for_account cfg st.account) ∧
    (ledger_tx_parts cfg rmatch st (some src)).map TxParts.from_account =
      Except.ok
        (if st.amount < 0 then get_ledger_account_for_account cfg st.account
         else get_ledger_account_for_account cfg src.account) := by
  by_cases hlt : st.amount < 0
  · rcases h2 with heq | ⟨c2, hc2⟩
    · constructor <;>
        simp [ledger_tx_parts, heq, h1, hlt, Except.map, Bind.bind,
          Except.bind, Pure.pure, Except.pure]
    · by_cases hne : src.amount = src.operationAmount
      · constructor <;>
          simp [ledger_tx_parts, hne, h1, hlt, Except.map, Bind.bind,
            Except.bind, Pure.pure, Except.pure]
      · constructor <;>
          simp [ledger_tx_parts, hne, hc2, h1, hlt, Except.map, Bind.bind,
            Except.bind, Pure.pure, Except.pure]
  · rcases h2 with heq | ⟨c2, hc2⟩
    · constructor <;>
        simp [ledger_tx_parts, heq, h1, hlt, Except.map, Bind.bind,
          Except.bind, Pure.pure, Except.pure]
    · by_cases hne : src.amount = src.operationAmount
      · constructor <;>
          simp [ledger_tx_parts, hne, h1, hlt, Except.map, Bind.bind,
            Except.bind, Pure.pure, Except.pure]
      · constructor <;>
          simp [ledger_tx_parts, hne, hc2, h1, hlt, Except.map, Bind.bind,
            Except.bind, Pure.pure, Except.pure]

/-- C9 witness: the amended claim applied to the negative-amount merged
transfer `stNeg`/`stSrc9`. -/
theorem claim_C9_witness :
    currencyAlpha3 stNeg.currencyCode = Except.ok "UAH" ∧
    (stSrc9.amount = stSrc9.operationAmount ∨
      ∃ c2, currencyAlpha3 stSrc9.account.currencyCode = Except.ok c2) ∧
    ((ledger_tx_parts cfgBase rmatchFalse stNeg (some stSrc9)).map
        TxParts.to_account =
      Except.ok
        (if stNeg.amount < 0 then
          get_ledger_account_for_account cfgBase stSrc9.account
         else get_ledger_account_for_account cfgBase stNeg.account) ∧
     (ledger_tx_parts cfgBase rmatchFalse stNeg (some stSrc9)).map
        TxParts.from_account =
      Except.ok
        (if stNeg.amount < 0 then
          get_ledger_account_for_account cfgBase stNeg.account
         else get_ledger_account_for_account cfgBase stSrc9.account)) :=
  ⟨rfl, Or.inl rfl,
    claim_C9_amended cfgBase rmatchFalse stNeg stSrc9 "UAH" rfl (Or.inl rfl)⟩

theorem match_aux_nil (rmatch : String → String → Bool) (stmt : StatementItem)
    (cur : MatcherValue) :
    match_statement_aux rmatch stmt .nil cur = .ok cur := rfl

theorem match_aux_cons (rmatch : String → String → Bool) (stmt : StatementItem)
    (val : Option MatcherValue) (pred : MatcherPredicate)
    (subsOpt : Option MatchersModel) (rest : MatchersModel)
    (cur : MatcherValue) :
    match_statement_aux rmatch stmt (.cons (.mk val pred subsOpt) rest) cur =
      if predHolds rmatch stmt pred then
        match val with
        | none => .error (.attributeError "model_dump")
        | some v =>
          match subsOpt with
          | some subs => match_statement_aux rmatch stmt subs (mergeValues cur v)
          | none => .ok (mergeValues cur v)
      else match_statement_aux rmatch stmt rest cur := by
  rw [match_statement_aux.eq_def]

theorem setIgnoreMs_nil (b : Bool) : setIgnoreMs b .nil = .nil := by
  rw [setIgnoreMs.eq_def]

theorem setIgnoreMs_cons (b : Bool) (val : Option MatcherValue)
    (pred : MatcherPredicate) (subsOpt : Option MatchersModel)
    (rest : MatchersModel) :
    setIgnoreMs b (.cons (.mk val pred subsOpt) rest) =
      .cons (.mk (val.map fun v => { v with ignore := some b }) pred
        (match subsOpt with
         | some ms => some (setIgnoreMs b ms)
         | none => none)) (setIgnoreMs b rest) := by
  rw [setIgnoreMs.eq_def]

theorem eraseIg_payee (u v : MatcherValue) (h : eraseIg u = eraseIg v) :
    u.payee = v.payee := by
  have := congrArg MatcherValue.payee h
  simpa [eraseIg] using this

theorem eraseIg_ledger (u v : MatcherValue) (h : eraseIg u = eraseIg v) :
    u.ledger_account = v.ledger_account := by
  have := congrArg MatcherValue.ledger_account h
  simpa [eraseIg] using this

theorem match_aux_setIgnore (b : Bool) (rmatch : String → String → Bool)
    (stmt : StatementItem) :
    ∀ (ms : MatchersModel) (cur cur2 : MatcherValue),
      eraseIg cur = eraseIg cur2 →
      (match_statement_aux rmatch stmt (setIgnoreMs b ms) cur).map eraseIg =
        (match_statement_aux rmatch stmt ms cur2).map eraseIg
  | .nil, cur, cur2, h => by
    simp [setIgnoreMs_nil, match_aux_nil, Except.map, h]
  | .cons (.mk val pred subsOpt) rest, cur, cur2, h => by
    have hmerge : ∀ v : MatcherValue,
        eraseIg (mergeValues cur { v with ignore := some b }) =
          eraseIg (mergeValues cur2 v) := by
      intro v
      have hp := eraseIg_payee cur cur2 h
      have hl := eraseIg_ledger cur cur2 h
      simp [eraseIg, mergeValues, hp, hl]
    rw [setIgnoreMs_cons, match_aux_cons, match_aux_cons]
    by_cases hpred : predHolds rmatch stmt pred
    · rw [if_pos hpred, if_pos hpred]
      cases val with
      | none => rfl
      | some v =>
        cases subsOpt with
        | none => simp [Except.map, hmerge v]
        | some subs =>
          exact match_aux_setIgnore b rmatch stmt subs
            (mergeValues cur { v with ignore := some b }) (mergeValues cur2 v)
            (hmerge v)
    · rw [if_neg hpred, if_neg hpred]
      exact match_aux_setIgnore b rmatch stmt rest cur cur2 h
termination_by ms => sizeOf ms
decreasing_by
  all_goals simp_wf
  all_goals omega

theorem claim_C10_amended (b : Bool) (cfg : ConfigModel)
    (rmatch : String → String → Bool) (df : Int → String)
    (s : StatementItem) (srcOpt : Option StatementItem) :
    format_ledger_transaction (setAllIgnore b cfg) rmatch df s srcOpt =
      format_ledger_transaction cfg rmatch df s srcOpt := by
  cases srcOpt with
  | some src => rfl
  | none =>
    have hinv : (match_statement (setAllIgnore b cfg) rmatch s).map eraseIg =
        (match_statement cfg rmatch s).map eraseIg :=
      match_aux_setIgnore b rmatch s cfg.matchers defaultMatcherValue
        defaultMatcherValue rfl
    cases h1 : match_statement (setAllIgnore b cfg) rmatch s with
    | error e1 =>
      cases h2 : match_statement cfg rmatch s with
      | error e2 =>
        rw [h1, h2] at hinv
        simp [Except.map] at hinv
        simp [format_ledger_transaction, ledger_tx_parts, h1, h2, hinv,
          Except.map, Bind.bind, Except.bind]
      | ok v2 =>
        rw [h1, h2] at hinv
        simp [Except.map] at hinv
    | ok v1 =>
      cases h2 : match_statement cfg rmatch s with
      | error e2 =>
        rw [h1, h2] at hinv
        simp [Except.map] at hinv
      | ok v2 =>
        simp [format_ledger_transaction, ledger_tx_parts, h1, h2,
          Except.map, Bind.bind, Except.bind]

/-- C10 counterexample: a statement classified by a rule with
`ignore = true`.  The claim's conclusion "a ledger transaction block is
emitted" fails: the single-statement path raises `AttributeError` before
emitting any block (with `ignore = false` the result is the same error, so
the flag still has no effect). -/
theorem claim_C10_counterexample :
    format_ledger_transaction cfgC10 rmatchFalse dfTest stC10 none =
      Except.error (PyErr.attributeError "source_ledger_account_suffix") := by
  rfl

theorem insertDesc_append :
    ∀ (acc : List StatementItem) (x : StatementItem),
      (∀ y ∈ acc, ¬ keyGt x y) → insertDesc x acc = acc ++ [x]
  | [], x, _ => rfl
  | y :: ys, x, h => by
    simp only [insertDesc]
    rw [if_neg (h y (List.mem_cons_self y ys))]
    rw [insertDesc_append ys x (fun z hz => h z (List.mem_cons_of_mem y hz))]
    rfl

theorem foldl_insert_eq :
    ∀ (rest pre : List StatementItem),
      (∀ x ∈ rest, ∀ y ∈ pre, ¬ keyGt x y) →
      List.Pairwise (fun a b => ¬ keyGt b a) rest →
      List.foldl (fun acc x => insertDesc x acc) pre rest = pre ++ rest
  | [], pre, _, _ => by simp
  | r :: rs, pre, hcross, hpw => by
    simp only [List.foldl_cons]
    obtain ⟨hr, hpw2⟩ := List.pairwise_cons.mp hpw
    rw [insertDesc_append pre r
      (fun y hy => hcross r (List.mem_cons_self r rs) y hy)]
    have h2 : ∀ x ∈ rs, ∀ y ∈ pre ++ [r], ¬ keyGt x y := by
      intro x hx y hy
      rcases List.mem_append.mp hy with hy | hy
      · exact hcross x (List.mem_cons_of_mem r hx) y hy
      · rcases List.mem_singleton.mp hy with rfl
        exact hr x hx
    rw [foldl_insert_eq rs (pre ++ [r]) h2 hpw2]
    simp

/-- `sorted(..., reverse=True)` leaves a list untouched when it is already
ordered newest-first under the `(time, amount)` key. -/
theorem sortStatements_eq_self (l : List StatementItem)
    (h : List.Pairwise (fun a b => ¬ keyGt b a) l) :
    sortStatements l = l := by
  have := foldl_insert_eq l [] (by simp) h
  simpa [sortStatements] using this

theorem cle_loop_nil (cfg : ConfigModel) (rmatch : String → String → Bool)
    (df : Int → String) (accounts : List Account) :
    cle_loop cfg rmatch df accounts [] = .ok [] := by
  rw [cle_loop.eq_def]

theorem cle_loop_cons (cfg : ConfigModel) (rmatch : String → String → Bool)
    (df : Int → String) (accounts : List Account) (s : StatementItem)
    (rest : List StatementItem) :
    cle_loop cfg rmatch df accounts (s :: rest) =
      if is_cross_card_statement accounts s then
        cle_chain cfg rmatch df accounts s s rest
      else
        match format_ledger_transaction cfg rmatch df s none with
        | .error e => .error e
        | .ok blocks =>
          match cle_loop cfg rmatch df accounts rest with
          | .error e => .error e
          | .ok more => .ok (blocks.reverse ++ more) := by
  rw [cle_loop.eq_def]

theorem cle_chain_nil (cfg : ConfigModel) (rmatch : String → String → Bool)
    (df : Int → String) (accounts : List Account) (first cur : StatementItem) :
    cle_chain cfg rmatch df accounts first cur [] =
      match format_ledger_transaction cfg rmatch df first (some cur) with
      | .error e => .error e
      | .ok blocks => .ok blocks.reverse := by
  rw [cle_chain.eq_def]

theorem cle_chain_cons (cfg : ConfigModel) (rmatch : String → String → Bool)
    (df : Int → String) (accounts : List Account) (first cur n : StatementItem)
    (t : List StatementItem) :
    cle_chain cfg rmatch df accounts first cur (n :: t) =
      if chainCond cur n then cle_chain cfg rmatch df accounts first n t
      else
        match format_ledger_transaction cfg rmatch df first (some cur) with
        | .error e => .error e
        | .ok blocks =>
          match cle_loop cfg rmatch df accounts (n :: t) with
          | .error e => .error e
          | .ok more => .ok (blocks.reverse ++ more) := by
  rw [cle_chain.eq_def]

/-- Walking a fully chain-compatible tail consumes it entirely: the merged
transaction pairs the chain's first statement with its last. -/
theorem cle_chain_consume (cfg : ConfigModel) (rmatch : String → String → Bool)
    (df : Int → String) (accounts : List Account) (first s : StatementItem) :
    ∀ (T : List StatementItem) (cur : StatementItem),
      List.Chain chainCond cur (T ++ [s]) →
      cle_chain cfg rmatch df accounts first cur (T ++ [s]) =
        match format_ledger_transaction cfg rmatch df first (some s) with
        | .error e => .error e
        | .ok blocks => .ok blocks.reverse
  | [], cur, hchain => by
    obtain ⟨hcc, _⟩ := List.chain_cons.mp hchain
    rw [List.nil_append, cle_chain_cons, if_pos hcc, cle_chain_nil]
  | n :: T, cur, hchain => by
    obtain ⟨hcc, hrest⟩ := List.chain_cons.mp hchain
    rw [List.cons_append, cle_chain_cons, if_pos hcc]
    exact cle_chain_consume cfg rmatch df accounts first s T n hrest

/-- The merged-transfer branch of the formatter succeeds and yields exactly
one block when the destination statement carries no cashback and the
involved currency codes resolve. -/
theorem format_merged_ok (cfg : ConfigModel) (rmatch : String → String → Bool)
    (df : Int → String) (st src : StatementItem) (c : String)
    (hcb : st.cashbackAmount = 0)
    (hc : currencyAlpha3 st.currencyCode = Except.ok c)
    (hx : src.amount = src.operationAmount ∨
      ∃ c2, currencyAlpha3 src.account.currencyCode = Except.ok c2) :
    ∃ b, format_ledger_transaction cfg rmatch df st (some src) =
      Except.ok [b] := by
  obtain ⟨p, hp⟩ : ∃ p, ledger_tx_parts cfg rmatch st (some src) =
      Except.ok p := by
    by_cases hlt : st.amount < 0
    · rcases hx with heq | ⟨c2, hc2⟩
      · simp [ledger_tx_parts, heq, hc, hlt, Except.map, Bind.bind,
          Except.bind, Pure.pure, Except.pure]
      · by_cases hne : src.amount = src.operationAmount
        · simp [ledger_tx_parts, hne, hc, hlt, Except.map, Bind.bind,
            Except.bind, Pure.pure, Except.pure]
        · simp [ledger_tx_parts, hne, hc2, hc, hlt, Except.map, Bind.bind,
            Except.bind, Pure.pure, Except.pure]
    · rcases hx with heq | ⟨c2, hc2⟩
      · simp [ledger_tx_parts, heq, hc, hlt, Except.map, Bind.bind,
          Except.bind, Pure.pure, Except.pure]
      · by_cases hne : src.amount = src.operationAmount
        · simp [ledger_tx_parts, hne, hc, hlt, Except.map, Bind.bind,
            Except.bind, Pure.pure, Except.pure]
        · simp [ledger_tx_parts, hne, hc2, hc, hlt, Except.map, Bind.bind,
            Except.bind, Pure.pure, Except.pure]
  obtain ⟨x, hx2⟩ : ∃ x, render_transaction cfg df st p = [x] := by
    simp [render_transaction, hcb]
  exact ⟨x, by simp only [format_ledger_transaction, hp, Except.map, hx2]⟩

/-- C3 counterexample: the start/end pair `stS`/`stE` (chain-compatible,
cross-card) with one unrelated statement `stU` timed between them.  Instead
of one merged transfer for the pair, the walk stops at `stU` (merging `stE`
with itself) and the run then aborts while formatting `stU` as a single
statement, so no merged record for the pair is ever emitted. -/
theorem claim_C3_counterexample :
    create_ledger_entries cfgBase rmatchFalse dfTest [acctSrc, acctDst]
      [stE, stU, stS] =
      Except.error (PyErr.attributeError "source_ledger_account_suffix") := by
  have hE : is_cross_card_statement [acctSrc, acctDst] stE = true := by rfl
  have hU : is_cross_card_statement [acctSrc, acctDst] stU = false := by rfl
  have hcond : ¬ chainCond stE stU := by decide
  obtain ⟨bs, hbs⟩ : ∃ bs, format_ledger_transaction cfgBase rmatchFalse dfTest
      stE (some stE) = Except.ok bs := ⟨_, rfl⟩
  have hfmtU : format_ledger_transaction cfgBase rmatchFalse dfTest stU none =
      Except.error (PyErr.attributeError "source_ledger_account_suffix") := rfl
  simp only [create_ledger_entries]
  rw [sortStatements_eq_self _ (by decide), cle_loop_cons, if_pos hE,
    cle_chain_cons, if_neg hcond, hbs, cle_loop_cons,
    if_neg (by simp [hU] : ¬ is_cross_card_statement [acctSrc, acctDst] stU = true),
    hfmtU]

/-- C3 amended: when the start/end pair and its transitive statements form a
contiguous, chain-compatible run in the newest-first order — end first, then
the transitives, then the start — with nothing interleaved, the merge engine
emits exactly one merged transfer (pairing the end statement with the start
statement) and no standalone record for any consumed statement.  Interleaved
unrelated statements break the chain (and are themselves formatted on the
single-statement path, which aborts the run). -/
theorem claim_C3_amended (cfg : ConfigModel) (rmatch : String → String → Bool)
    (df : Int → String) (accounts : List Account) (e s : StatementItem)
    (T : List StatementItem) (c : String)
    (hsorted : List.Pairwise (fun a b => ¬ keyGt b a) (e :: (T ++ [s])))
    (hcross : is_cross_card_statement accounts e = true)
    (hchain : List.Chain chainCond e (T ++ [s]))
    (hcb : e.cashbackAmount = 0)
    (hc : currencyAlpha3 e.currencyCode = Except.ok c)
    (hx : s.amount = s.operationAmount ∨
      ∃ c2, currencyAlpha3 s.account.currencyCode = Except.ok c2) :
    ∃ b, create_ledger_entries cfg rmatch df accounts (e :: (T ++ [s])) =
        Except.ok [b] ∧
      format_ledger_transaction cfg rmatch df e (some s) = Except.ok [b] := by
  obtain ⟨b, hb⟩ := format_merged_ok cfg rmatch df e s c hcb hc hx
  refine ⟨b, ?_, hb⟩
  simp only [create_ledger_entries]
  rw [sortStatements_eq_self _ hsorted, cle_loop_cons, if_pos hcross,
    cle_chain_consume cfg rmatch df accounts e s T e hchain, hb]
  simp

/-- C3 witness: the amended claim applied to the concrete chain
`stE :: [stT1] ++ [stS2]` (end, one transitive hop, start with a currency
exchange), sorted newest-first. -/
theorem claim_C3_witness :
    List.Pairwise (fun a b => ¬ keyGt b a) (stE :: ([stT1] ++ [stS2])) ∧
    is_cross_card_statement [acctSrc, acctDst] stE = true ∧
    List.Chain chainCond stE ([stT1] ++ [stS2]) ∧
    stE.cashbackAmount = 0 ∧
    currencyAlpha3 stE.currencyCode = Except.ok "UAH" ∧
    (stS2.amount = stS2.operationAmount ∨
      ∃ c2, currencyAlpha3 stS2.account.currencyCode = Except.ok c2) ∧
    (∃ b, create_ledger_entries cfgBase rmatchFalse dfTest [acctSrc, acctDst]
        (stE :: ([stT1] ++ [stS2])) = Except.ok [b] ∧
      format_ledger_transaction cfgBase rmatchFalse dfTest stE (some stS2) =
        Except.ok [b]) := by
  have h1 : List.Pairwise (fun a b => ¬ keyGt b a)
      (stE :: ([stT1] ++ [stS2])) := by decide
  have h2 : is_cross_card_statement [acctSrc, acctDst] stE = true := by rfl
  have h3 : List.Chain chainCond stE ([stT1] ++ [stS2]) :=
    List.Chain.cons (by decide) (List.Chain.cons (by decide) List.Chain.nil)
  have h4 : stE.cashbackAmount = 0 := rfl
  have h5 : currencyAlpha3 stE.currencyCode = Except.ok "UAH" := rfl
  have h6 : stS2.amount = stS2.operationAmount ∨
      ∃ c2, currencyAlpha3 stS2.account.currencyCode = Except.ok c2 :=
    Or.inr ⟨"EUR", rfl⟩
  exact ⟨h1, h2, h3, h4, h5, h6,
    claim_C3_amended cfgBase rmatchFalse dfTest [acctSrc, acctDst] stE stS2
      [stT1] "UAH" h1 h2 h3 h4 h5 h6⟩
